import Mathlib

/-!
Verification of the fitstack_payments payment-orchestration bridge.

This file gives a shallow embedding, in Lean 4, of the parts of the Go
source that the specification's claims are about:

* the Mercado Pago webhook signature validator
  (`internal/adapters/mercadopago/webhook_validator.go`):
  `parseSignatureHeader`, `buildManifest`, `calculateHMAC` (a full
  executable HMAC-SHA256 over byte lists) and `ValidateSignature`;
* the status-to-event mapping `mapStatusToEvent` of the Django-variant
  service (`internal/core/service`);
* the two credential-resolver HTTP clients
  (`internal/platform/fitstack_core/client.go` and
  `internal/adapters/django/client.go`), modelled over an oracle for the
  HTTP outcome, together with Go's `errors.Is` sentinel classification;
* the two orchestration services (`internal/payment/service.go` and the
  Django-variant `internal/core/service`), modelled over oracles for
  their collaborators and instrumented with a trace of collaborator
  calls;
* the two Mercado Pago gateway adapters' `GetPaymentInfo`
  (`internal/adapters/mercadopago/adapter.go` via `strconv.Atoi`, and
  the platform variant via `fmt.Sscanf "%d"`).

Go strings are modelled as Lean `String`; `[]byte(s)` is modelled by
UTF-8 encoding of the characters.  Go `float64` amounts are modelled as
`ℚ` (only their comparison with `0` matters to any claim).  Go errors
are modelled by an inductive wrap chain mirroring `errors.Is`.
-/

/-! ## Go error model

The repository uses sentinel errors (`errors.New` package-level values),
`fmt.Errorf` with and without `%w`, and two identical wrapper structs
(`PaymentError` in `internal/domain`, `ServiceError` in
`internal/core/domain`) whose `Unwrap` returns the wrapped base error.
`errorsIs` mirrors Go's `errors.Is` against a sentinel target. -/

/-- The package-level sentinel errors of both `domain` packages. -/
inductive Sentinel where
  | gymNotFound
  | paymentNotEnabled
  | invalidAccessToken
  | invalidPaymentOrder
  | paymentGatewayError
  | webhookValidationFailed
  | coreAPIError
  | invalidRequest
  | djangoCallbackFailed
  deriving DecidableEq, Repr

/-- A Go error value as produced by this repository: a sentinel, a leaf
error from an external library (or `fmt.Errorf` without `%w`), a
`fmt.Errorf("...: %w", base)` wrap, or a `PaymentError`/`ServiceError`
struct (whose `Unwrap` returns `base`). -/
inductive GoError where
  | sentinel (s : Sentinel)
  | external (msg : String)
  | wrapped (msg : String) (base : GoError)
  | structured (base : GoError) (msg code : String)
  deriving DecidableEq, Repr

/-- Go `errors.Is(err, target)` for a sentinel `target`: walk the
`Unwrap` chain and compare. -/
def errorsIs : GoError → Sentinel → Bool
  | .sentinel s, t => s == t
  | .external _, _ => false
  | .wrapped _ b, t => errorsIs b t
  | .structured b _ _, t => errorsIs b t

/-! ## String helpers -/

/-- Go `strings.Join(parts, sep)`. -/
def goJoin (sep : String) : List String → String
  | [] => ""
  | [s] => s
  | s :: rest => s ++ sep ++ goJoin sep rest

/-! ## Signature header parsing

Go's `parseSignatureHeader` extracts the `ts` and `v1` values with the
regexes `ts=([^,]+)` and `v1=([^,]+)`: the leftmost occurrence of the
key followed by at least one non-comma character, the capture being the
maximal run of non-comma characters.  `matchAt` is one attempt at a
fixed position; `scanFor` scans positions left to right. -/

/-- One regex-match attempt anchored at the start of `s`: succeeds when
`key` is a prefix of `s` followed by at least one non-comma character,
capturing the maximal non-comma run. -/
def matchAt (key s : List Char) : Option (List Char) :=
  if key.isPrefixOf s then
    let v := (s.drop key.length).takeWhile (fun c => c ≠ ',')
    if v.isEmpty then none else some v
  else none

/-- Leftmost regex match of `key` followed by a non-empty non-comma
capture, scanning positions left to right. -/
def scanFor (key : List Char) : List Char → Option (List Char)
  | [] => none
  | c :: rest =>
    match matchAt key (c :: rest) with
    | some v => some v
    | none => scanFor key rest

/-- Embedding of `parseSignatureHeader` of `webhook_validator.go`: returns the `ts`
and `v1` captures, `""` when a regex does not match. -/
def parseSignatureHeader (header : String) : String × String :=
  (match scanFor "ts=".data header.data with
   | some v => String.mk v
   | none => "",
   match scanFor "v1=".data header.data with
   | some v => String.mk v
   | none => "")

/-- Embedding of `buildManifest` of `webhook_validator.go`: collect the non-empty
fields, `strings.Join` them with `";"`, and append a final `";"`. -/
def buildManifest (dataID requestID ts : String) : String :=
  let parts : List String :=
    (if dataID ≠ "" then ["id:" ++ dataID] else []) ++
    (if requestID ≠ "" then ["request-id:" ++ requestID] else []) ++
    (if ts ≠ "" then ["ts:" ++ ts] else [])
  goJoin ";" parts ++ ";"

/-- The canonical message exactly as the specification words it: the
concatenation, in fixed order, of `name:value;` for each non-empty
field, empty fields omitted entirely.  (Spec-side definition, to be
compared with the source's `buildManifest`.) -/
def specCanonicalMessage (dataID requestID ts : String) : String :=
  (if dataID ≠ "" then "id:" ++ dataID ++ ";" else "") ++
  (if requestID ≠ "" then "request-id:" ++ requestID ++ ";" else "") ++
  (if ts ≠ "" then "ts:" ++ ts ++ ";" else "")

/-! ## SHA-256 and HMAC-SHA256

An executable embedding of `crypto/sha256` and `crypto/hmac` over lists
of bytes (`Nat` values `< 256`), with 32-bit words as `Nat` reduced
modulo `2^32`. -/

/-- Truncate to a 32-bit word. -/
def w32 (n : Nat) : Nat := n % 4294967296

/-- Rotation of a 32-bit word to the right (argument assumed `< 2^32`). -/
def rotr32 (n x : Nat) : Nat := w32 ((x >>> n) ||| (x <<< (32 - n)))

/-- SHA-256 `Ch(x,y,z) = (x ∧ y) ⊕ (¬x ∧ z)`. -/
def sha2Ch (x y z : Nat) : Nat := (x &&& y) ^^^ ((4294967295 ^^^ x) &&& z)

/-- SHA-256 `Maj(x,y,z)`. -/
def sha2Maj (x y z : Nat) : Nat := (x &&& y) ^^^ (x &&& z) ^^^ (y &&& z)

/-- SHA-256 `Σ₀`. -/
def bigSigma0 (x : Nat) : Nat := rotr32 2 x ^^^ rotr32 13 x ^^^ rotr32 22 x

/-- SHA-256 `Σ₁`. -/
def bigSigma1 (x : Nat) : Nat := rotr32 6 x ^^^ rotr32 11 x ^^^ rotr32 25 x

/-- SHA-256 `σ₀`. -/
def smallSigma0 (x : Nat) : Nat := rotr32 7 x ^^^ rotr32 18 x ^^^ (x >>> 3)

/-- SHA-256 `σ₁`. -/
def smallSigma1 (x : Nat) : Nat := rotr32 17 x ^^^ rotr32 19 x ^^^ (x >>> 10)

/-- The 64 SHA-256 round constants. -/
def sha2K : List Nat :=
  [1116352408, 1899447441, 3049323471, 3921009573, 961987163,
   1508970993, 2453635748, 2870763221, 3624381080, 310598401,
   607225278, 1426881987, 1925078388, 2162078206, 2614888103,
   3248222580, 3835390401, 4022224774, 264347078, 604807628,
   770255983, 1249150122, 1555081692, 1996064986, 2554220882,
   2821834349, 2952996808, 3210313671, 3336571891, 3584528711,
   113926993, 338241895, 666307205, 773529912, 1294757372,
   1396182291, 1695183700, 1986661051, 2177026350, 2456956037,
   2730485921, 2820302411, 3259730800, 3345764771, 3516065817,
   3600352804, 4094571909, 275423344, 430227734, 506948616,
   659060556, 883997877, 958139571, 1322822218, 1537002063,
   1747873779, 1955562222, 2024104815, 2227730452, 2361852424,
   2428436474, 2756734187, 3204031479, 3329325298]

/-- The eight 32-bit working registers of SHA-256. -/
structure Hash8 where
  a : Nat
  b : Nat
  c : Nat
  d : Nat
  e : Nat
  f : Nat
  g : Nat
  h : Nat
  deriving DecidableEq, Repr

/-- SHA-256 initial hash value. -/
def sha2H0 : Hash8 :=
  ⟨1779033703, 3144134277, 1013904242, 2773480762,
   1359893119, 2600822924, 528734635, 1541459225⟩

/-- Big-endian serialization of `n` into `k` bytes. -/
def toBytesBE : Nat → Nat → List Nat
  | 0, _ => []
  | k + 1, n => toBytesBE k (n / 256) ++ [n % 256]

/-- SHA-256 padding: append `0x80`, zero bytes to 56 mod 64, and the
64-bit big-endian bit length. -/
def sha2Pad (msg : List Nat) : List Nat :=
  let L := msg.length
  let zeros := (64 + 56 - (L + 1) % 64) % 64
  msg ++ [0x80] ++ List.replicate zeros 0 ++ toBytesBE 8 (8 * L)

/-- Group bytes into big-endian 32-bit words. -/
def bytesToWords : List Nat → List Nat
  | a :: b :: c :: d :: rest =>
    (a * 16777216 + b * 65536 + c * 256 + d) :: bytesToWords rest
  | _ => []

/-- Extend the 16-word message block by `k` further schedule words. -/
def sha2Extend : List Nat → Nat → List Nat
  | ws, 0 => ws
  | ws, k + 1 =>
    let t := ws.length
    let w := w32 (smallSigma1 (ws.getD (t - 2) 0) + ws.getD (t - 7) 0 +
                  smallSigma0 (ws.getD (t - 15) 0) + ws.getD (t - 16) 0)
    sha2Extend (ws ++ [w]) k

/-- The 64 SHA-256 rounds, folding over `(Kₜ, Wₜ)` pairs. -/
def sha2Rounds : Hash8 → List (Nat × Nat) → Hash8
  | st, [] => st
  | ⟨a, b, c, d, e, f, g, h⟩, (k, w) :: rest =>
    let t1 := w32 (h + bigSigma1 e + sha2Ch e f g + k + w)
    let t2 := w32 (bigSigma0 a + sha2Maj a b c)
    sha2Rounds ⟨w32 (t1 + t2), a, b, c, w32 (d + t1), e, f, g⟩ rest

/-- Compress one 16-word block into the running hash state. -/
def sha2Compress (st : Hash8) (block : List Nat) : Hash8 :=
  let ws := sha2Extend block 48
  let r := sha2Rounds st (sha2K.zip ws)
  ⟨w32 (st.a + r.a), w32 (st.b + r.b), w32 (st.c + r.c), w32 (st.d + r.d),
   w32 (st.e + r.e), w32 (st.f + r.f), w32 (st.g + r.g), w32 (st.h + r.h)⟩

/-- Process the padded message 16 words (one block) at a time.  The
padded message is always a whole number of blocks, so the second arm is
only ever reached with an empty remainder. -/
def sha2Blocks : Hash8 → List Nat → Hash8
  | st, w0 :: w1 :: w2 :: w3 :: w4 :: w5 :: w6 :: w7 ::
        w8 :: w9 :: w10 :: w11 :: w12 :: w13 :: w14 :: w15 :: rest =>
    sha2Blocks
      (sha2Compress st
        [w0, w1, w2, w3, w4, w5, w6, w7, w8, w9, w10, w11, w12, w13, w14, w15])
      rest
  | st, _ => st

/-- Big-endian serialization of one 32-bit word into 4 bytes. -/
def wordBytes (x : Nat) : List Nat :=
  [x / 16777216 % 256, x / 65536 % 256, x / 256 % 256, x % 256]

/-- SHA-256 of a byte list: a 32-byte digest. -/
def sha256 (msg : List Nat) : List Nat :=
  let st := sha2Blocks sha2H0 (bytesToWords (sha2Pad msg))
  wordBytes st.a ++ wordBytes st.b ++ wordBytes st.c ++ wordBytes st.d ++
  wordBytes st.e ++ wordBytes st.f ++ wordBytes st.g ++ wordBytes st.h

/-- HMAC-SHA256 (`crypto/hmac` with a 64-byte block size). -/
def hmacSha256 (key msg : List Nat) : List Nat :=
  let k0 := if 64 < key.length then sha256 key else key
  let k1 := k0 ++ List.replicate (64 - k0.length) 0
  let ipad := k1.map (fun b => b ^^^ 0x36)
  let opad := k1.map (fun b => b ^^^ 0x5c)
  sha256 (opad ++ sha256 (ipad ++ msg))

/-- UTF-8 encoding of one character, as Go produces for `[]byte(s)`. -/
def utf8EncodeChar (c : Char) : List Nat :=
  let n := c.toNat
  if n < 0x80 then [n]
  else if n < 0x800 then
    [0xC0 ||| (n >>> 6), 0x80 ||| (n &&& 0x3F)]
  else if n < 0x10000 then
    [0xE0 ||| (n >>> 12), 0x80 ||| ((n >>> 6) &&& 0x3F), 0x80 ||| (n &&& 0x3F)]
  else
    [0xF0 ||| (n >>> 18), 0x80 ||| ((n >>> 12) &&& 0x3F),
     0x80 ||| ((n >>> 6) &&& 0x3F), 0x80 ||| (n &&& 0x3F)]

/-- Go `[]byte(s)`: the UTF-8 bytes of a string. -/
def strBytes (s : String) : List Nat := (s.data.map utf8EncodeChar).flatten

/-- Go `hex.EncodeToString`: two lowercase hex digits per byte. -/
def hexEncode (bs : List Nat) : String :=
  String.mk (bs.flatMap (fun b => [Nat.digitChar (b / 16), Nat.digitChar (b % 16)]))

/-- Embedding of `calculateHMAC` of `webhook_validator.go`: hex-encoded HMAC-SHA256
of the manifest keyed by the secret. -/
def calculateHMAC (manifest secret : String) : String :=
  hexEncode (hmacSha256 (strBytes secret) (strBytes manifest))

/-- Embedding of `ValidateSignature` of `webhook_validator.go`.  The final
`hmac.Equal([]byte(hash), []byte(expectedHash))` is byte-slice equality
of UTF-8 encodings, which coincides with string equality. -/
def validateSignature (xSignature xRequestID dataID secret : String) : Bool :=
  if xSignature == "" || secret == "" then false
  else
    let p := parseSignatureHeader xSignature
    if p.1 == "" || p.2 == "" then false
    else
      let manifest := buildManifest dataID xRequestID p.1
      let expectedHash := calculateHMAC manifest secret
      p.2 == expectedHash

/-- Embedding of `mapStatusToEvent` of the Django-variant service. -/
def mapStatusToEvent (status : String) : String :=
  match status with
  | "approved" => "payment.approved"
  | "pending" | "in_process" => "payment.pending"
  | "rejected" => "payment.rejected"
  | "cancelled" => "payment.cancelled"
  | "refunded" => "payment.refunded"
  | _ => "payment.updated"

/-! ## Parsing a well-formed `ts=...,v1=...` header -/

/-- A signature header of the exact shape Mercado Pago sends:
`ts=<timestamp>,v1=<signature>`. -/
def mpSignatureHeader (ts sig : String) : String := "ts=" ++ ts ++ ",v1=" ++ sig

/-! ## Domain data model (Core variant: `internal/domain`) -/

/-- Struct `domain.GymConfig`. -/
structure GymConfig where
  id : String
  slug : String
  name : String
  accessToken : String
  isPaymentEnabled : Bool
  deriving DecidableEq, Repr

/-- Struct `domain.PaymentOrder` (amount modelled as `ℚ`). -/
structure PaymentOrder where
  gymSlug : String
  amount : ℚ
  title : String
  description : String
  payerEmail : String
  deriving DecidableEq, Repr

/-- Struct `domain.PaymentPreference`. -/
structure PaymentPreference where
  id : String
  initPoint : String
  deriving DecidableEq, Repr

/-- Struct `domain.PaymentStatus` (Core variant; `time.Time` modelled as a
string timestamp). -/
structure PaymentStatus where
  paymentId : String
  gymSlug : String
  status : String
  statusDetail : String
  externalRef : String
  amount : ℚ
  payerEmail : String
  transactionDate : String
  deriving DecidableEq, Repr

/-- Struct `core/domain.PaymentInfo` (Django variant). -/
structure PaymentInfo where
  paymentId : String
  status : String
  statusDetail : String
  externalReference : String
  amount : ℚ
  currency : String
  paymentMethod : String
  paymentType : String
  payerEmail : String
  dateApproved : String
  deriving DecidableEq, Repr

/-- Struct `core/domain.PaymentRequest` (Django variant). -/
structure PaymentRequest where
  gymSlug : String
  amount : ℚ
  title : String
  description : String
  payerEmail : String
  externalReference : String
  mpAccessToken : String
  successUrl : String
  failureUrl : String
  pendingUrl : String
  deriving DecidableEq, Repr

/-- Struct `core/domain.PaymentResponse` (Django variant; absent JSON fields
are the zero value `""`). -/
structure PaymentResponse where
  success : Bool
  preferenceId : String
  initPoint : String
  sandboxInitPoint : String
  error : String
  errorCode : String
  deriving DecidableEq, Repr

/-! ## Credential resolvers over an HTTP-outcome oracle -/

/-- The observable outcome of one backend HTTP fetch, as the client code
branches on it: request construction failed, transport failed, or a
response arrived with a status code and a body that either decodes or
does not. -/
inductive FetchOutcome (α : Type) where
  | reqError (msg : String)
  | netError (msg : String)
  | response (status : Nat) (body : Except String α)
  deriving Repr

/-- The Core API's gym-config JSON body. -/
structure GymConfigResp where
  id : String
  slug : String
  name : String
  accessToken : String
  isPaymentEnabled : Bool
  deriving DecidableEq, Repr

/-- The Django credentials JSON body. -/
structure GymCredentialsResp where
  gymSlug : String
  webhookSecret : String
  accessToken : String
  deriving DecidableEq, Repr

/-- Embedding of `Client.GetGymConfig` of `internal/platform/fitstack_core/client.go`:
404 is the bare `ErrGymNotFound` sentinel; transport failures, 401/403,
other statuses and malformed bodies are `fmt.Errorf` errors that do not
wrap the sentinel. -/
def getGymConfig (o : FetchOutcome GymConfigResp) : Except GoError GymConfig :=
  match o with
  | .reqError m => .error (.wrapped "failed to create request" (.external m))
  | .netError m => .error (.wrapped "failed to make request" (.external m))
  | .response status body =>
    if status = 200 then
      match body with
      | .error m => .error (.wrapped "failed to decode response" (.external m))
      | .ok r => .ok ⟨r.id, r.slug, r.name, r.accessToken, r.isPaymentEnabled⟩
    else if status = 404 then .error (.sentinel .gymNotFound)
    else if status = 401 ∨ status = 403 then
      .error (.external "authentication failed with Core API")
    else .error (.external "unexpected status")

/-- Embedding of `Client.getGymCredentials` of `internal/adapters/django/client.go`:
404 is the bare `ErrGymNotFound` sentinel, but every other failure is a
`ServiceError` wrapping that same sentinel as its base. -/
def getGymCredentials (o : FetchOutcome GymCredentialsResp) : Except GoError GymCredentialsResp :=
  match o with
  | .reqError _ =>
    .error (.structured (.sentinel .gymNotFound) "failed to create request" "REQUEST_ERROR")
  | .netError m =>
    .error (.structured (.sentinel .gymNotFound) ("request failed: " ++ m) "HTTP_ERROR")
  | .response status body =>
    if status = 404 then .error (.sentinel .gymNotFound)
    else if status ≠ 200 then
      .error (.structured (.sentinel .gymNotFound) "Django returned status" "DJANGO_ERROR")
    else
      match body with
      | .error _ =>
        .error (.structured (.sentinel .gymNotFound) "failed to decode response" "DECODE_ERROR")
      | .ok creds => .ok creds

/-- Result classification via `errors.Is(err, ErrGymNotFound)`. -/
def isNotFoundResult {α : Type} : Except GoError α → Bool
  | .error e => errorsIs e .gymNotFound
  | .ok _ => false

/-- Is the result any error at all? -/
def isErrorResult {α : Type} : Except GoError α → Bool
  | .error _ => true
  | .ok _ => false

/-- Did the backend answer HTTP 404? -/
def respondedNotFound {α : Type} : FetchOutcome α → Bool
  | .response status _ => status == 404
  | _ => false

/-! ## Core-variant checkout service (`internal/payment/service.go`) -/

/-- Embedding of `validateOrder` of `internal/payment/service.go`: the four checks in
source order. -/
def validateOrder (order : PaymentOrder) : Option GoError :=
  if order.gymSlug = "" then
    some (.structured (.sentinel .invalidPaymentOrder) "gym_id is required" "VALIDATION_ERROR")
  else if order.amount ≤ 0 then
    some (.structured (.sentinel .invalidPaymentOrder) "amount must be greater than 0"
      "VALIDATION_ERROR")
  else if order.title = "" then
    some (.structured (.sentinel .invalidPaymentOrder) "title is required" "VALIDATION_ERROR")
  else if order.payerEmail = "" then
    some (.structured (.sentinel .invalidPaymentOrder) "payer_email is required"
      "VALIDATION_ERROR")
  else none

/-- One run of the Core-variant `Service.CreateCheckout`: its result and
whether the gateway's `CreatePreference` was reached. -/
structure CheckoutRun where
  result : Except GoError PaymentPreference
  gatewayCalled : Bool

/-- Embedding of `Service.CreateCheckout` of `internal/payment/service.go`, over
oracles for the repository fetch and the gateway call. -/
def createCheckout (gymConfigResult : Except GoError GymConfig)
    (gatewayResult : Except GoError PaymentPreference) (order : PaymentOrder) : CheckoutRun :=
  match validateOrder order with
  | some e => ⟨.error e, false⟩
  | none =>
    match gymConfigResult with
    | .error e =>
      if errorsIs e .gymNotFound then
        ⟨.error (.structured e ("gym '" ++ order.gymSlug ++ "' not found") "GYM_NOT_FOUND"),
         false⟩
      else
        ⟨.error (.structured (.sentinel .coreAPIError) "failed to fetch gym configuration"
            "CORE_API_ERROR"), false⟩
    | .ok gymConfig =>
      if gymConfig.isPaymentEnabled = false then
        ⟨.error (.structured (.sentinel .paymentNotEnabled)
            ("gym '" ++ order.gymSlug ++ "' does not have payment integration enabled")
            "PAYMENT_NOT_ENABLED"), false⟩
      else if gymConfig.accessToken = "" then
        ⟨.error (.structured (.sentinel .invalidAccessToken)
            "gym payment configuration is incomplete" "INVALID_TOKEN"), false⟩
      else
        match gatewayResult with
        | .error _ =>
          ⟨.error (.structured (.sentinel .paymentGatewayError)
              "failed to create payment preference" "GATEWAY_ERROR"), true⟩
        | .ok preference => ⟨.ok preference, true⟩

/-! ## The two webhook orchestrations -/

/-- A collaborator call made during one webhook invocation. -/
inductive WebhookCall where
  | getWebhookSecret
  | validateSignatureCall
  | getAccessToken
  | getPaymentInfo
  | notifyBackend
  | getGymConfig
  deriving DecidableEq, Repr

/-- Struct `core/domain.WebhookNotification` (Django variant). -/
structure WebhookNotification where
  id : Int
  liveMode : Bool
  type : String
  dateCreated : String
  userId : Int
  apiVersion : String
  action : String
  dataId : String
  deriving DecidableEq, Repr

/-- Struct `domain.WebhookNotification` (Core variant). -/
structure CoreNotification where
  id : String
  type : String
  action : String
  dataId : String
  liveMode : Bool
  dateCreated : String
  deriving DecidableEq, Repr

/-- Collaborator oracles of the Django-variant `PaymentService`. -/
structure DjangoWebhookEnv where
  getWebhookSecret : Except GoError String
  getAccessToken : Except GoError String
  getPaymentInfo : Except GoError PaymentInfo
  notifyDjango : Option GoError

/-- Collaborator oracles of the Core-variant `Service`. -/
structure CoreWebhookEnv where
  getGymConfig : Except GoError GymConfig
  getPaymentInfo : Except GoError PaymentStatus
  notifyCore : Option GoError

/-- One webhook invocation: its result and the ordered list of
collaborator calls it made. -/
structure WebhookRun where
  result : Except GoError Unit
  calls : List WebhookCall

/-- Embedding of `PaymentService.ProcessWebhook` of the Django-variant service
(`internal/core/service`), with the Mercado Pago `ValidateSignature`
(the validator wired in production) inlined as the verifier.  The
payload construction (`mapStatusToEvent`, timestamp) does not change
control flow and is not part of the run record. -/
def processWebhookDjango (env : DjangoWebhookEnv) (gymSlug : String)
    (notification : WebhookNotification) (xSignature xRequestID : String) : WebhookRun :=
  match env.getWebhookSecret with
  | .error _ =>
    ⟨.error (.structured (.sentinel .gymNotFound) ("gym not found: " ++ gymSlug)
        "GYM_NOT_FOUND"), [.getWebhookSecret]⟩
  | .ok secret =>
    if validateSignature xSignature xRequestID notification.dataId secret = false then
      ⟨.error (.sentinel .webhookValidationFailed), [.getWebhookSecret, .validateSignatureCall]⟩
    else if notification.type ≠ "payment" then
      ⟨.ok (), [.getWebhookSecret, .validateSignatureCall]⟩
    else
      match env.getAccessToken with
      | .error e => ⟨.error e, [.getWebhookSecret, .validateSignatureCall, .getAccessToken]⟩
      | .ok _ =>
        match env.getPaymentInfo with
        | .error e =>
          ⟨.error e,
           [.getWebhookSecret, .validateSignatureCall, .getAccessToken, .getPaymentInfo]⟩
        | .ok _ =>
          match env.notifyDjango with
          | some e =>
            ⟨.error e,
             [.getWebhookSecret, .validateSignatureCall, .getAccessToken, .getPaymentInfo,
              .notifyBackend]⟩
          | none =>
            ⟨.ok (),
             [.getWebhookSecret, .validateSignatureCall, .getAccessToken, .getPaymentInfo,
              .notifyBackend]⟩

/-- Embedding of `Service.ProcessWebhook` of `internal/payment/service.go` (the
variant `cmd/api/main.go` wires): type gate, config fetch, payment
fetch, then notification — with no signature verification anywhere. -/
def processWebhookCore (env : CoreWebhookEnv) (_gymSlug : String)
    (notification : CoreNotification) : WebhookRun :=
  if notification.type ≠ "payment" then ⟨.ok (), []⟩
  else
    match env.getGymConfig with
    | .error e =>
      ⟨.error (.structured e "failed to fetch gym configuration for webhook processing"
          "WEBHOOK_GYM_ERROR"), [.getGymConfig]⟩
    | .ok _ =>
      match env.getPaymentInfo with
      | .error _ =>
        ⟨.error (.structured (.sentinel .paymentGatewayError) "failed to get payment info"
            "WEBHOOK_GATEWAY_ERROR"), [.getGymConfig, .getPaymentInfo]⟩
      | .ok _ =>
        match env.notifyCore with
        | some _ =>
          ⟨.error (.structured (.sentinel .coreAPIError) "failed to notify core about payment"
              "WEBHOOK_NOTIFY_ERROR"), [.getGymConfig, .getPaymentInfo, .notifyBackend]⟩
        | none => ⟨.ok (), [.getGymConfig, .getPaymentInfo, .notifyBackend]⟩

/-! ## Payment-id parsing and the gateway adapters' `GetPaymentInfo` -/

/-- Decimal value of a digit list. -/
def digitsToNat (l : List Char) : Nat :=
  l.foldl (fun acc c => acc * 10 + (c.toNat - 48)) 0

/-- Go `strconv.Atoi`: an optional sign followed by at least one digit
and nothing else.  (The 64-bit range error is not modelled; only
syntactic parse failure matters to the claims.) -/
def goAtoi (s : String) : Option Int :=
  match s.data with
  | [] => none
  | c :: rest =>
    if c = '+' ∨ c = '-' then
      if rest = [] ∨ rest.all Char.isDigit = false then none
      else some ((if c = '-' then -1 else 1) * (digitsToNat rest : Int))
    else
      if (c :: rest).all Char.isDigit = false then none
      else some ((digitsToNat (c :: rest) : Int))

/-- Go `fmt.Sscanf(s, "%d", &n)`: skip leading white space, then an
optional sign and at least one digit; trailing input is ignored. -/
def sscanfD (s : String) : Option Int :=
  let t := s.data.dropWhile (fun c => c = ' ' ∨ c = '\t' ∨ c = '\n')
  let signed : Int × List Char :=
    match t with
    | '-' :: u => (-1, u)
    | '+' :: u => (1, u)
    | u => (1, u)
  let ds := signed.2.takeWhile Char.isDigit
  if ds.isEmpty then none else some (signed.1 * (digitsToNat ds : Int))

/-- The provider's payment record as returned by the SDK (only the
fields the adapters read; `time.Time` zero-ness carried explicitly). -/
structure MPPayment where
  status : String
  statusDetail : String
  externalReference : String
  transactionAmount : ℚ
  currencyId : String
  paymentMethodId : String
  paymentTypeId : String
  payerEmail : String
  dateCreated : String
  dateCreatedIsZero : Bool
  dateApproved : String
  dateApprovedIsZero : Bool
  deriving DecidableEq, Repr

/-- One `GetPaymentInfo` run: the result and whether the provider's
`client.Get` was reached. -/
structure GetPaymentRun (α : Type) where
  result : Except GoError α
  providerCalled : Bool

/-- Embedding of `Adapter.GetPaymentInfo` of `internal/adapters/mercadopago/adapter.go`
(Django variant): `config.New` outcome and `client.Get` outcome are
oracles; the id is parsed with `strconv.Atoi` after config creation and
before contacting the provider. -/
def adapterGetPaymentInfo (cfgResult : Except String Unit)
    (getResult : Except String MPPayment) (now paymentId : String) : GetPaymentRun PaymentInfo :=
  match cfgResult with
  | .error _ =>
    ⟨.error (.structured (.sentinel .paymentGatewayError) "failed to create MP config"
        "MP_CONFIG_ERROR"), false⟩
  | .ok _ =>
    match goAtoi paymentId with
    | none =>
      ⟨.error (.structured (.sentinel .invalidRequest) "invalid payment ID format"
          "INVALID_PAYMENT_ID"), false⟩
    | some _ =>
      match getResult with
      | .error m =>
        ⟨.error (.structured (.sentinel .paymentGatewayError)
            ("failed to get payment info: " ++ m) "MP_PAYMENT_ERROR"), true⟩
      | .ok r =>
        ⟨.ok ⟨paymentId, r.status, r.statusDetail, r.externalReference, r.transactionAmount,
            r.currencyId, r.paymentMethodId, r.paymentTypeId, r.payerEmail,
            if r.dateApprovedIsZero then now else r.dateApproved⟩, true⟩

/-- Embedding of `Adapter.GetPaymentInfo` of the platform adapter (Core variant):
the id is parsed with `fmt.Sscanf "%d"`; a parse failure is a wrapped
`fmt.Errorf` that does not carry the gateway sentinel. -/
def platformGetPaymentInfo (cfgResult : Except String Unit)
    (getResult : Except String MPPayment) (now paymentId : String) : GetPaymentRun PaymentStatus :=
  match cfgResult with
  | .error m => ⟨.error (.wrapped "failed to create MP config" (.external m)), false⟩
  | .ok _ =>
    match sscanfD paymentId with
    | none => ⟨.error (.wrapped "invalid payment ID format" (.external "expected integer")), false⟩
    | some _ =>
      match getResult with
      | .error m => ⟨.error (.wrapped "failed to get payment info" (.external m)), true⟩
      | .ok r =>
        ⟨.ok ⟨paymentId, "", r.status, r.statusDetail, r.externalReference,
            r.transactionAmount, r.payerEmail,
            if r.dateCreatedIsZero then now else r.dateCreated⟩, true⟩

/-! ## Django-variant `PaymentService.CreateCheckout` -/

/-- One run of the Django-variant `PaymentService.CreateCheckout`: the
response, the Go error returned alongside it, and whether the gateway's
`CreatePreference` was reached. -/
structure DjangoCheckoutRun where
  response : PaymentResponse
  goError : Option GoError
  gatewayCalled : Bool

/-- Embedding of `PaymentService.CreateCheckout` of the Django-variant service:
every failure is encoded in the `PaymentResponse` with a `nil` Go
error; validation covers the access token, gym slug, amount and title
(not the payer email). -/
def djangoCreateCheckout (gatewayResult : Except GoError PaymentResponse)
    (req : PaymentRequest) : DjangoCheckoutRun :=
  if req.mpAccessToken = "" then
    ⟨⟨false, "", "", "", "mp_access_token is required", "VALIDATION_ERROR"⟩, none, false⟩
  else if req.gymSlug = "" ∨ req.amount ≤ 0 ∨ req.title = "" then
    ⟨⟨false, "", "", "", "gym_slug, amount, and title are required", "VALIDATION_ERROR"⟩,
     none, false⟩
  else
    match gatewayResult with
    | .error _ =>
      ⟨⟨false, "", "", "", "Failed to create payment preference", "GATEWAY_ERROR"⟩, none, true⟩
    | .ok response => ⟨response, none, true⟩

/-- The header, read as text, contains a `<key>`-entry the validator's
regex accepts: an occurrence of the key immediately followed by at
least one non-comma character. -/
def hasHeaderEntry (key : List Char) (header : String) : Prop :=
  ∃ pre c post, header.data = pre ++ key ++ c :: post ∧ c ≠ ','

def c1Env : CoreWebhookEnv :=
  ⟨.ok ⟨"1", "gym-1", "Gym One", "APP_USR-token", true⟩,
   .ok ⟨"555", "gym-1", "approved", "accredited", "order-42", 100, "p@x.com",
      "2024-01-01T00:00:00Z"⟩,
   none⟩

def c1Notification : CoreNotification :=
  ⟨"evt-1", "payment", "payment.updated", "555", true, "2024-01-01T00:00:00Z"⟩

/-! ## Lemmas about header parsing -/

theorem isPrefixOf_append_self (k t : List Char) : k.isPrefixOf (k ++ t) = true := by
  induction k with
  | nil => simp [List.isPrefixOf]
  | cons c k ih => simp [List.isPrefixOf, ih]

theorem takeWhile_append_all (p : Char → Bool) (s t : List Char) (h : ∀ c ∈ s, p c) :
    (s ++ t).takeWhile p = s ++ t.takeWhile p := by
  induction s with
  | nil => simp
  | cons c s ih =>
    have hc : p c := h c (by simp)
    simp [List.takeWhile_cons, hc]
    exact ih (fun x hx => h x (by simp [hx]))

theorem takeWhile_all (p : Char → Bool) (s : List Char) (h : ∀ c ∈ s, p c) :
    s.takeWhile p = s := by
  have := takeWhile_append_all p s [] h
  simpa using this

theorem matchAt_self (key s : List Char) :
    matchAt key (key ++ s) =
      (if (s.takeWhile (fun c => c ≠ ',')).isEmpty then none
       else some (s.takeWhile (fun c => c ≠ ','))) := by
  simp [matchAt, isPrefixOf_append_self, List.drop_left]

theorem matchAt_nil (key : List Char) : matchAt key [] = none := by
  cases key with
  | nil => simp [matchAt]
  | cons c k => simp [matchAt, List.isPrefixOf]

theorem scanFor_of_matchAt_some (key s : List Char) (v : List Char)
    (h : matchAt key s = some v) : scanFor key s = some v := by
  cases s with
  | nil => rw [matchAt_nil] at h; exact absurd h (by simp)
  | cons c rest => simp [scanFor, h]

theorem scanFor_append_of_head_notin (k : Char) (key s t : List Char)
    (h : ∀ c ∈ s, c ≠ k) : scanFor (k :: key) (s ++ t) = scanFor (k :: key) t := by
  induction s with
  | nil => simp
  | cons c s ih =>
    have hc : c ≠ k := h c (by simp)
    have hkc : (k == c) = false := beq_eq_false_iff_ne.mpr (Ne.symm hc)
    have hm : matchAt (k :: key) (c :: (s ++ t)) = none := by
      simp [matchAt, List.isPrefixOf, hkc]
    rw [List.cons_append]
    simp only [scanFor, hm]
    exact ih (fun x hx => h x (by simp [hx]))

theorem scanFor_none_of_head_notin (k : Char) (key s : List Char)
    (h : ∀ c ∈ s, c ≠ k) : scanFor (k :: key) s = none := by
  have := scanFor_append_of_head_notin k key s [] h
  simpa [scanFor] using this

theorem matchAt_eq_none_iff (key s : List Char) :
    matchAt key s = none ↔ ¬ ∃ c post, s = key ++ c :: post ∧ c ≠ ',' := by
  constructor
  · rintro h ⟨c, post, rfl, hc⟩
    rw [matchAt_self] at h
    have : ((c :: post).takeWhile (fun x => x ≠ ',')).isEmpty = false := by
      simp [List.takeWhile_cons, hc]
    rw [this] at h
    simp at h
  · intro h
    unfold matchAt
    by_cases hp : key.isPrefixOf s
    · rcases List.isPrefixOf_iff_prefix.mp hp with ⟨t, rfl⟩
      cases t with
      | nil => simp
      | cons c post =>
        have hc : c = ',' := by
          by_contra hc
          exact h ⟨c, post, rfl, hc⟩
        subst hc
        simp [List.drop_left, List.takeWhile_cons]
    · simp [hp]

theorem scanFor_eq_none_iff (key s : List Char) :
    scanFor key s = none ↔ ¬ ∃ pre c post, s = pre ++ key ++ c :: post ∧ c ≠ ',' := by
  induction s with
  | nil =>
    simp only [scanFor, true_iff]
    rintro ⟨pre, c, post, habs, -⟩
    have := congrArg List.length habs
    simp at this
    omega
  | cons a rest ih =>
    cases hm : matchAt key (a :: rest) with
    | some v =>
      simp only [scanFor, hm]
      constructor
      · intro h; exact absurd h (by simp)
      · intro h
        exfalso
        have hnone : matchAt key (a :: rest) ≠ none := by simp [hm]
        rw [Ne, matchAt_eq_none_iff, not_not] at hnone
        rcases hnone with ⟨c, post, heq, hc⟩
        exact h ⟨[], c, post, by simpa using heq, hc⟩
    | none =>
      simp only [scanFor, hm]
      rw [ih]
      constructor
      · rintro h ⟨pre, c, post, heq, hc⟩
        cases pre with
        | nil =>
          rw [matchAt_eq_none_iff] at hm
          exact hm ⟨c, post, by simpa using heq, hc⟩
        | cons a' pre' =>
          simp only [List.cons_append, List.cons.injEq] at heq
          exact h ⟨pre', c, post, heq.2, hc⟩
      · intro h ⟨pre, c, post, heq, hc⟩
        exact h ⟨a :: pre, c, post, by simp [heq], hc⟩

/-! ## Lemmas about the hex-encoded digest -/

theorem wordBytes_length (x : Nat) : (wordBytes x).length = 4 := by
  simp [wordBytes]

theorem sha256_length (msg : List Nat) : (sha256 msg).length = 32 := by
  simp [sha256, wordBytes]

theorem wordBytes_lt (x : Nat) : ∀ b ∈ wordBytes x, b < 256 := by
  intro b hb
  simp [wordBytes] at hb
  rcases hb with h | h | h | h <;> subst h <;> omega

theorem sha256_lt (msg : List Nat) : ∀ b ∈ sha256 msg, b < 256 := by
  intro b hb
  simp only [sha256, List.mem_append] at hb
  rcases hb with ((((((h | h) | h) | h) | h) | h) | h) | h <;> exact wordBytes_lt _ b h

theorem hmacSha256_length (key msg : List Nat) : (hmacSha256 key msg).length = 32 := by
  simp [hmacSha256, sha256_length]

theorem hmacSha256_lt (key msg : List Nat) : ∀ b ∈ hmacSha256 key msg, b < 256 := by
  intro b hb
  simp only [hmacSha256] at hb
  exact sha256_lt _ b hb

theorem hexEncode_data (bs : List Nat) :
    (hexEncode bs).data = bs.flatMap (fun b => [Nat.digitChar (b / 16), Nat.digitChar (b % 16)]) :=
  rfl

theorem hexEncode_data_length (bs : List Nat) : (hexEncode bs).data.length = 2 * bs.length := by
  rw [hexEncode_data]
  induction bs with
  | nil => simp
  | cons b bs ih => simp [ih]; ring

theorem digitChar_not_reserved : ∀ n < 16, Nat.digitChar n ≠ ',' ∧ Nat.digitChar n ≠ 'v' := by
  decide

theorem mem_hexEncode_not_reserved (bs : List Nat) (hlt : ∀ b ∈ bs, b < 256) :
    ∀ c ∈ (hexEncode bs).data, c ≠ ',' ∧ c ≠ 'v' := by
  intro c hc
  rw [hexEncode_data] at hc
  simp only [List.mem_flatMap, List.mem_cons, List.not_mem_nil, or_false] at hc
  rcases hc with ⟨b, hb, h | h⟩ <;> subst h
  · exact digitChar_not_reserved (b / 16) (by have := hlt b hb; omega)
  · exact digitChar_not_reserved (b % 16) (by omega)

theorem calculateHMAC_data_length (manifest secret : String) :
    (calculateHMAC manifest secret).data.length = 64 := by
  rw [calculateHMAC, hexEncode_data_length, hmacSha256_length]

theorem calculateHMAC_not_reserved (manifest secret : String) :
    ∀ c ∈ (calculateHMAC manifest secret).data, c ≠ ',' ∧ c ≠ 'v' :=
  mem_hexEncode_not_reserved _ (hmacSha256_lt _ _)

theorem calculateHMAC_ne_empty (manifest secret : String) :
    calculateHMAC manifest secret ≠ "" := by
  intro h
  have := calculateHMAC_data_length manifest secret
  rw [h] at this
  simp at this

theorem isDigit_ne_reserved (c : Char) (h : c.isDigit = true) : c ≠ ',' ∧ c ≠ 'v' := by
  constructor <;> rintro rfl <;> exact absurd h (by decide)

theorem mpSignatureHeader_data (ts sig : String) :
    (mpSignatureHeader ts sig).data =
      "ts=".data ++ (ts.data ++ ([','] ++ ("v1=".data ++ sig.data))) := by
  have h : (mpSignatureHeader ts sig).data = "ts=".data ++ ts.data ++ ",v1=".data ++ sig.data := by
    simp [mpSignatureHeader, String.data_append]
  rw [h]
  simp [List.append_assoc]

theorem string_mk_data (s : String) : String.mk s.data = s := by
  cases s
  rfl

theorem scanFor_headerTs (ts rest : List Char) (hne : ts ≠ [])
    (hc : ∀ c ∈ ts, c ≠ ',') :
    scanFor "ts=".data ("ts=".data ++ (ts ++ ([','] ++ rest))) = some ts := by
  apply scanFor_of_matchAt_some
  rw [matchAt_self]
  have h1 : (ts ++ ([','] ++ rest)).takeWhile (fun c => c ≠ ',') = ts := by
    rw [takeWhile_append_all (fun c => decide (c ≠ ',')) ts ([','] ++ rest)
          (by intro c hcc; simpa using hc c hcc)]
    simp [List.takeWhile_cons]
  rw [h1]
  simp [hne]

theorem scanFor_headerV1 (pre v : List Char) (hpre : ∀ c ∈ pre, c ≠ 'v')
    (hv : ∀ c ∈ v, c ≠ ',') (hne : v ≠ []) :
    scanFor "v1=".data (pre ++ ("v1=".data ++ v)) = some v := by
  have hkey : "v1=".data = 'v' :: "1=".data := rfl
  rw [hkey, scanFor_append_of_head_notin 'v' "1=".data pre _ hpre, ← hkey]
  apply scanFor_of_matchAt_some
  rw [matchAt_self]
  rw [takeWhile_all (fun c => decide (c ≠ ',')) v (by intro c hcc; simpa using hv c hcc)]
  simp [hne]

theorem scanFor_headerV1_comma (pre a b : List Char) (hpre : ∀ c ∈ pre, c ≠ 'v')
    (ha : ∀ c ∈ a, c ≠ ',' ∧ c ≠ 'v') (hb : ∀ c ∈ b, c ≠ 'v') :
    scanFor "v1=".data (pre ++ ("v1=".data ++ (a ++ ([','] ++ b)))) =
      if a.isEmpty then none else some a := by
  have hkey : "v1=".data = 'v' :: "1=".data := rfl
  rw [hkey, scanFor_append_of_head_notin 'v' "1=".data pre _ hpre, ← hkey]
  have htw : (a ++ ([','] ++ b)).takeWhile (fun c => c ≠ ',') = a := by
    rw [takeWhile_append_all (fun c => decide (c ≠ ',')) a ([','] ++ b)
          (by intro c hcc; simpa using (ha c hcc).1)]
    simp [List.takeWhile_cons]
  cases haE : a.isEmpty
  · simp only [Bool.false_eq_true, if_false]
    apply scanFor_of_matchAt_some
    rw [matchAt_self, htw, haE]
    simp
  · have haNil : a = [] := by simpa [List.isEmpty_iff] using haE
    subst haNil
    simp only [if_true]
    have hm : matchAt "v1=".data ("v1=".data ++ ([] ++ ([','] ++ b))) = none := by
      rw [matchAt_self, htw]
      rfl
    have hshape : "v1=".data ++ ([] ++ ([','] ++ b)) =
        'v' :: (('1' :: '=' :: []) ++ ([','] ++ b)) := rfl
    rw [hshape] at hm ⊢
    simp only [scanFor, hm]
    refine scanFor_none_of_head_notin 'v' ('1' :: '=' :: [])
      (('1' :: '=' :: []) ++ ([','] ++ b)) ?_
    intro c hcc
    simp only [List.cons_append, List.nil_append, List.mem_cons] at hcc
    rcases hcc with rfl | rfl | rfl | hcb
    · decide
    · decide
    · decide
    · exact hb c hcb

theorem string_mk_beq_empty (l : List Char) (h : l ≠ []) : (String.mk l == "") = false := by
  apply beq_eq_false_iff_ne.mpr
  intro habs
  exact h (congrArg String.data habs)

theorem validateSignature_eval (header requestID dataID secret : String)
    (hh : header ≠ "") (hs : secret ≠ "") (tsv hashv : List Char)
    (hts : scanFor "ts=".data header.data = some tsv) (htsne : tsv ≠ [])
    (hv1 : scanFor "v1=".data header.data = some hashv) (hvne : hashv ≠ []) :
    validateSignature header requestID dataID secret =
      (String.mk hashv ==
        calculateHMAC (buildManifest dataID requestID (String.mk tsv)) secret) := by
  unfold validateSignature parseSignatureHeader
  rw [hts, hv1]
  simp only [beq_eq_false_iff_ne.mpr hh, beq_eq_false_iff_ne.mpr hs,
    string_mk_beq_empty tsv htsne, string_mk_beq_empty hashv hvne,
    Bool.or_self, Bool.false_eq_true, if_false]

theorem validateSignature_false_of_v1_none (header requestID dataID secret : String)
    (hv1 : scanFor "v1=".data header.data = none) :
    validateSignature header requestID dataID secret = false := by
  unfold validateSignature parseSignatureHeader
  rw [hv1]
  cases h1 : (header == "" || secret == "")
  · simp only [Bool.false_eq_true, if_false]
    have : ((match scanFor "ts=".data header.data with
             | some v => String.mk v
             | none => "") == "" || ("" : String) == "") = true := by
      simp
    rw [this]
    simp
  · simp

theorem validateSignature_false_of_ts_none (header requestID dataID secret : String)
    (hts : scanFor "ts=".data header.data = none) :
    validateSignature header requestID dataID secret = false := by
  unfold validateSignature parseSignatureHeader
  rw [hts]
  cases h1 : (header == "" || secret == "")
  · simp only [Bool.false_eq_true, if_false]
    simp
  · simp

theorem string_data_ne_nil_iff (s : String) : s.data ≠ [] ↔ s ≠ "" := by
  cases s
  simp [String.ext_iff]

theorem validateSignature_false_of_empty_secret (h r d : String) :
    validateSignature h r d "" = false := by
  unfold validateSignature
  simp

theorem mpSignatureHeader_ne_empty (ts v : String) : mpSignatureHeader ts v ≠ "" := by
  intro h
  have hd := congrArg String.data h
  rw [mpSignatureHeader_data] at hd
  simp at hd

theorem tsPrefix_no_v (ts : String) (htsv : ∀ c ∈ ts.data, c ≠ 'v') :
    ∀ c ∈ "ts=".data ++ ts.data ++ [','], c ≠ 'v' := by
  intro c hc
  have hlit : "ts=".data = ['t', 's', '='] := rfl
  rw [hlit] at hc
  simp only [List.append_assoc, List.cons_append, List.nil_append, List.mem_cons,
    List.mem_append, List.mem_singleton] at hc
  rcases hc with rfl | rfl | rfl | hc | rfl | hc
  · decide
  · decide
  · decide
  · exact htsv c hc
  · decide
  · exact absurd hc (List.not_mem_nil c)

theorem header_reassoc (ts : String) (X : List Char) :
    "ts=".data ++ (ts.data ++ ([','] ++ X)) = ("ts=".data ++ ts.data ++ [',']) ++ X := by
  simp [List.append_assoc]

/-- C7: signature verification round-trips with signing.  For every
resource id, request id, digit timestamp and non-empty secret, the header
`ts=<ts>,v1=<hex HMAC-SHA256 of the canonical message under the secret>`
verifies true against that secret; it verifies false against any secret
whose HMAC over that message differs; it verifies false for any other
comma-free non-empty v1 value; and it verifies false when any character
of the v1 value in the header is altered (including alteration to a
comma, which truncates or removes the capture). -/
theorem C7_verify_roundtrip (dataID requestID ts secret : String)
    (htsne : ts ≠ "") (hdig : ∀ c ∈ ts.data, c.isDigit = true) (hsec : secret ≠ "") :
    (validateSignature
        (mpSignatureHeader ts (calculateHMAC (buildManifest dataID requestID ts) secret))
        requestID dataID secret = true)
    ∧ (∀ secret2 : String,
        calculateHMAC (buildManifest dataID requestID ts) secret2 ≠
          calculateHMAC (buildManifest dataID requestID ts) secret →
        validateSignature
          (mpSignatureHeader ts (calculateHMAC (buildManifest dataID requestID ts) secret))
          requestID dataID secret2 = false)
    ∧ (∀ sig : String, sig ≠ "" → (∀ c ∈ sig.data, c ≠ ',') →
        sig ≠ calculateHMAC (buildManifest dataID requestID ts) secret →
        validateSignature (mpSignatureHeader ts sig) requestID dataID secret = false)
    ∧ (∀ i : Nat, ∀ c : Char,
        i < (calculateHMAC (buildManifest dataID requestID ts) secret).data.length →
        c ≠ (calculateHMAC (buildManifest dataID requestID ts) secret).data.getD i ' ' →
        validateSignature
          (mpSignatureHeader ts
            (String.mk ((calculateHMAC (buildManifest dataID requestID ts) secret).data.set i c)))
          requestID dataID secret = false) := by
  set hex := calculateHMAC (buildManifest dataID requestID ts) secret with hhex
  have htsd : ts.data ≠ [] := (string_data_ne_nil_iff ts).mpr htsne
  have htsc : ∀ c ∈ ts.data, c ≠ ',' := fun c hc => (isDigit_ne_reserved c (hdig c hc)).1
  have htsv : ∀ c ∈ ts.data, c ≠ 'v' := fun c hc => (isDigit_ne_reserved c (hdig c hc)).2
  have hpre := tsPrefix_no_v ts htsv
  -- parsing the ts capture of any header built from ts
  have hparse_ts : ∀ v : String,
      scanFor "ts=".data (mpSignatureHeader ts v).data = some ts.data := by
    intro v
    rw [mpSignatureHeader_data]
    exact scanFor_headerTs ts.data _ htsd htsc
  -- parsing the v1 capture of a header with a comma-free non-empty value
  have hparse_v1 : ∀ v : String, v.data ≠ [] → (∀ c ∈ v.data, c ≠ ',') →
      scanFor "v1=".data (mpSignatureHeader ts v).data = some v.data := by
    intro v hvne hvc
    rw [mpSignatureHeader_data, header_reassoc]
    exact scanFor_headerV1 _ v.data hpre hvc hvne
  -- evaluation of the validator on such headers
  have heval : ∀ v : String, v.data ≠ [] → (∀ c ∈ v.data, c ≠ ',') →
      ∀ s2 : String, s2 ≠ "" →
      validateSignature (mpSignatureHeader ts v) requestID dataID s2 =
        (v == calculateHMAC (buildManifest dataID requestID ts) s2) := by
    intro v hvne hvc s2 hs2
    have h := validateSignature_eval (mpSignatureHeader ts v) requestID dataID s2
      (mpSignatureHeader_ne_empty ts v) hs2 ts.data v.data (hparse_ts v) htsd
      (hparse_v1 v hvne hvc) hvne
    rwa [string_mk_data, string_mk_data] at h
  have hhexd : hex.data ≠ [] := by
    intro h
    have := calculateHMAC_data_length (buildManifest dataID requestID ts) secret
    rw [← hhex, h] at this
    simp at this
  have hhexc : ∀ c ∈ hex.data, c ≠ ',' :=
    fun c hc => (calculateHMAC_not_reserved _ _ c hc).1
  have hhexv : ∀ c ∈ hex.data, c ≠ 'v' :=
    fun c hc => (calculateHMAC_not_reserved _ _ c hc).2
  have hhexlen : hex.data.length = 64 := calculateHMAC_data_length _ _
  refine ⟨?_, ?_, ?_, ?_⟩
  · rw [heval hex hhexd hhexc secret hsec]
    exact beq_self_eq_true hex
  · intro secret2 hne
    by_cases hs2 : secret2 = ""
    · subst hs2
      exact validateSignature_false_of_empty_secret _ _ _
    · rw [heval hex hhexd hhexc secret2 hs2]
      exact beq_eq_false_iff_ne.mpr (fun h => hne (h.symm ▸ rfl))
  · intro sig hsne hsc hne
    rw [heval sig ((string_data_ne_nil_iff sig).mpr hsne) hsc secret hsec]
    exact beq_eq_false_iff_ne.mpr hne
  · intro i c hi hc
    rw [hhexlen] at hi
    by_cases hcc : c = ','
    · subst hcc
      -- the altered value contains a comma: the v1 capture is truncated or absent
      have hi2 : i < hex.data.length := by omega
      have hsplit : hex.data.set i ',' = hex.data.take i ++ ([','] ++ hex.data.drop (i + 1)) := by
        rw [List.set_eq_take_cons_drop ',' hi2]
        simp
      have hA : ∀ x ∈ hex.data.take i, x ≠ ',' ∧ x ≠ 'v' := by
        intro x hx
        have hmem : x ∈ hex.data := List.mem_of_mem_take hx
        exact ⟨hhexc x hmem, hhexv x hmem⟩
      have hB : ∀ x ∈ hex.data.drop (i + 1), x ≠ 'v' :=
        fun x hx => hhexv x (List.mem_of_mem_drop hx)
      have hparse : scanFor "v1=".data
          (mpSignatureHeader ts (String.mk (hex.data.set i ','))).data =
          if (hex.data.take i).isEmpty then none else some (hex.data.take i) := by
        rw [mpSignatureHeader_data, header_reassoc]
        have hmkd : (String.mk (hex.data.set i ',')).data = hex.data.set i ',' := rfl
        rw [hmkd, hsplit]
        exact scanFor_headerV1_comma _ _ _ hpre hA hB
      cases hE : (hex.data.take i).isEmpty
      · -- truncated capture: shorter than the 64-character digest, so unequal
        rw [hE] at hparse
        simp only [Bool.false_eq_true, if_false] at hparse
        have htne : hex.data.take i ≠ [] := by
          intro h
          rw [h] at hE
          simp at hE
        have h := validateSignature_eval _ requestID dataID secret
          (mpSignatureHeader_ne_empty ts _) hsec ts.data (hex.data.take i)
          (hparse_ts _) htsd hparse htne
        rw [string_mk_data] at h
        rw [h]
        apply beq_eq_false_iff_ne.mpr
        intro habs
        have hlen : (hex.data.take i).length = hex.data.length :=
          congrArg (fun s : String => s.data.length) habs
        simp only [List.length_take] at hlen
        rw [hhexlen] at hlen
        omega
      · -- the comma lands first: no v1 capture at all
        rw [hE] at hparse
        simp only [if_true] at hparse
        exact validateSignature_false_of_v1_none _ requestID dataID secret hparse
    · -- altered to a non-comma character: the capture differs from the digest
      have haltne : hex.data.set i c ≠ [] := by
        intro h
        have hl : (hex.data.set i c).length = 0 := by rw [h]; rfl
        rw [List.length_set, hhexlen] at hl
        exact absurd hl (by norm_num)
      have haltc : ∀ x ∈ hex.data.set i c, x ≠ ',' := by
        intro x hx
        rcases List.mem_or_eq_of_mem_set hx with hmem | rfl
        · exact hhexc x hmem
        · exact hcc
      have hmkd : (String.mk (hex.data.set i c)).data = hex.data.set i c := rfl
      rw [heval _ (by rw [hmkd]; exact haltne) (by rw [hmkd]; exact haltc) secret hsec]
      apply beq_eq_false_iff_ne.mpr
      intro habs
      have hdata := congrArg String.data habs
      rw [hmkd, ← hhex] at hdata
      have : (hex.data.set i c).getD i ' ' = hex.data.getD i ' ' := by rw [hdata]
      rw [List.getD_eq_getElem?_getD, List.getElem?_set_self (by omega), Option.getD_some] at this
      exact hc (by rw [← this])

/-- C5: the status-to-event mapping is total on strings: the six known
statuses map as tabulated, every other string (including `""`) maps to
`payment.updated`, and the result is always a non-empty event name. -/
theorem C5_mapStatusToEvent_total :
    mapStatusToEvent "approved" = "payment.approved"
    ∧ mapStatusToEvent "pending" = "payment.pending"
    ∧ mapStatusToEvent "in_process" = "payment.pending"
    ∧ mapStatusToEvent "rejected" = "payment.rejected"
    ∧ mapStatusToEvent "cancelled" = "payment.cancelled"
    ∧ mapStatusToEvent "refunded" = "payment.refunded"
    ∧ (∀ s : String,
        s ∉ (["approved", "pending", "in_process", "rejected", "cancelled", "refunded"] :
          List String) →
        mapStatusToEvent s = "payment.updated")
    ∧ (∀ s : String, mapStatusToEvent s ≠ "") := by
  refine ⟨rfl, rfl, rfl, rfl, rfl, rfl, ?_, ?_⟩
  · intro s hmem
    unfold mapStatusToEvent
    split <;> simp_all
  · intro s
    unfold mapStatusToEvent
    split <;> simp

/-- C4 counterexample: at the all-empty triple the source's
`buildManifest` yields the lone separator `";"`, not the empty
concatenation the claim prescribes for zero present fields. -/
theorem C4_counterexample_all_empty_manifest :
    buildManifest "" "" "" = ";" ∧ buildManifest "" "" "" ≠ specCanonicalMessage "" "" "" := by
  constructor
  · rfl
  · decide

/-- C4 (amended): for `resourceId=""`, `requestId="r1"`, `ts="100"` the
canonical string is `request-id:r1;ts:100;`, and whenever at least one
of the three fields is non-empty the manifest equals the fixed-order
concatenation of `name:value;` for the non-empty fields with empty
fields omitted.  (At the all-empty triple the code emits `";"`.) -/
theorem C4_manifest_omits_empty_fields_amended :
    buildManifest "" "r1" "100" = "request-id:r1;ts:100;"
    ∧ ∀ dataID requestID ts : String, (dataID ≠ "" ∨ requestID ≠ "" ∨ ts ≠ "") →
        buildManifest dataID requestID ts = specCanonicalMessage dataID requestID ts := by
  constructor
  · rfl
  · intro dataID requestID ts h
    by_cases h1 : dataID = "" <;> by_cases h2 : requestID = "" <;> by_cases h3 : ts = ""
    all_goals try (exfalso; rcases h with hx | hx | hx <;> exact hx (by assumption))
    all_goals
      simp only [buildManifest, specCanonicalMessage, goJoin, h1, h2, h3, ne_eq,
        not_true_eq_false, not_false_eq_true, if_true, if_false, List.nil_append,
        List.append_nil, List.cons_append, ite_true, ite_false]
    all_goals (apply String.ext; simp [String.data_append, List.append_assoc])

/-- C6: `ValidateSignature` fails closed: it returns `false` (and is a
total function — the embedding throws nothing) whenever the signature
header is empty, the secret is empty, or the header lacks a `ts` or a
`v1` entry that the parser's regex accepts. -/
theorem C6_verify_fails_closed (xSignature xRequestID dataID secret : String)
    (h : xSignature = "" ∨ secret = "" ∨
         ¬ hasHeaderEntry "ts=".data xSignature ∨ ¬ hasHeaderEntry "v1=".data xSignature) :
    validateSignature xSignature xRequestID dataID secret = false := by
  rcases h with rfl | rfl | h | h
  · unfold validateSignature
    simp
  · exact validateSignature_false_of_empty_secret xSignature xRequestID dataID
  · exact validateSignature_false_of_ts_none xSignature xRequestID dataID secret
      ((scanFor_eq_none_iff "ts=".data xSignature.data).mpr h)
  · exact validateSignature_false_of_v1_none xSignature xRequestID dataID secret
      ((scanFor_eq_none_iff "v1=".data xSignature.data).mpr h)

/-- Witness for C6 at a header carrying a `ts` entry but no `v1`
entry. -/
theorem C6_verify_fails_closed_witness :
    (¬ hasHeaderEntry "v1=".data "ts=123")
    ∧ validateSignature "ts=123" "req-1" "42" "secret" = false :=
  have hnone : scanFor "v1=".data "ts=123".data = none := rfl
  ⟨(scanFor_eq_none_iff "v1=".data "ts=123".data).mp hnone,
   C6_verify_fails_closed "ts=123" "req-1" "42" "secret"
     (Or.inr (Or.inr (Or.inr ((scanFor_eq_none_iff "v1=".data "ts=123".data).mp hnone))))⟩

/-- C1 (code bug): in the Core-variant `Service.ProcessWebhook` — the
one `cmd/api/main.go` wires — a payment-type notification with all
collaborators succeeding drives the run to invoke the backend notifier
while no signature-verification call occurs anywhere in the invocation,
contradicting the claim (and the router's own comment that webhook
security is handled by validating the signature). -/
theorem C1_core_webhook_notifies_without_verification :
    (processWebhookCore c1Env "gym-1" c1Notification).calls =
      [.getGymConfig, .getPaymentInfo, .notifyBackend]
    ∧ WebhookCall.notifyBackend ∈ (processWebhookCore c1Env "gym-1" c1Notification).calls
    ∧ WebhookCall.validateSignatureCall ∉ (processWebhookCore c1Env "gym-1" c1Notification).calls
    ∧ (processWebhookCore c1Env "gym-1" c1Notification).result = .ok () := by
  refine ⟨rfl, by decide, by decide, rfl⟩

/-- C2 counterexample: a 500 response from the Django credentials
endpoint — a transient failure per the claim — produces an error that
`errors.Is` classifies as `ErrGymNotFound`, because
`getGymCredentials` wraps the NotFound sentinel into every failure. -/
theorem C2_counterexample_django_transient_classified_notfound :
    isNotFoundResult (getGymCredentials (.response 500 (.ok ⟨"gym-1", "ws", "at"⟩))) = true := by
  rfl

/-- C2 (amended): the Core-variant `GetGymConfig` returns a
NotFound-classified error exactly when the backend answered 404, while
the Django-variant `getGymCredentials` classifies every failure —
request building, transport, non-2xx/non-404 status, malformed body —
as NotFound under `errors.Is`. -/
theorem C2_notfound_classification (core : FetchOutcome GymConfigResp)
    (dj : FetchOutcome GymCredentialsResp) :
    isNotFoundResult (getGymConfig core) = respondedNotFound core
    ∧ isNotFoundResult (getGymCredentials dj) = isErrorResult (getGymCredentials dj) := by
  constructor
  · cases core with
    | reqError m => simp [getGymConfig, isNotFoundResult, respondedNotFound, errorsIs]
    | netError m => simp [getGymConfig, isNotFoundResult, respondedNotFound, errorsIs]
    | response status body =>
      by_cases h200 : status = 200
      · subst h200
        cases body <;>
          simp [getGymConfig, isNotFoundResult, respondedNotFound, errorsIs]
      · by_cases h404 : status = 404
        · subst h404
          simp [getGymConfig, isNotFoundResult, respondedNotFound, errorsIs]
        · by_cases hauth : status = 401 ∨ status = 403
          · simp [getGymConfig, isNotFoundResult, respondedNotFound, errorsIs, h200, h404, hauth]
          · simp [getGymConfig, isNotFoundResult, respondedNotFound, errorsIs, h200, h404, hauth]
  · cases dj with
    | reqError m => simp [getGymCredentials, isNotFoundResult, isErrorResult, errorsIs]
    | netError m => simp [getGymCredentials, isNotFoundResult, isErrorResult, errorsIs]
    | response status body =>
      by_cases h404 : status = 404
      · subst h404
        simp [getGymCredentials, isNotFoundResult, isErrorResult, errorsIs]
      · by_cases h200 : status = 200
        · subst h200
          cases body <;>
            simp [getGymCredentials, isNotFoundResult, isErrorResult, errorsIs, h404]
        · simp [getGymCredentials, isNotFoundResult, isErrorResult, errorsIs, h404, h200]

/-- C3: the Core-variant `CreateCheckout` produces a preference only
when the resolved gym config has the enabled flag set and a non-empty
access token; and when the flag is false (for a valid order) the result
is the PaymentNotEnabled error and the gateway is never called. -/
theorem C3_checkout_requires_enabled_token (gymConfigResult : Except GoError GymConfig)
    (gatewayResult : Except GoError PaymentPreference) (order : PaymentOrder) :
    (∀ p, (createCheckout gymConfigResult gatewayResult order).result = .ok p →
      ∃ cfg, gymConfigResult = .ok cfg ∧ cfg.isPaymentEnabled = true ∧ cfg.accessToken ≠ "")
    ∧ (∀ cfg, gymConfigResult = .ok cfg → cfg.isPaymentEnabled = false →
        (createCheckout gymConfigResult gatewayResult order).gatewayCalled = false
        ∧ (validateOrder order = none →
            ∃ e, (createCheckout gymConfigResult gatewayResult order).result = .error e
              ∧ errorsIs e .paymentNotEnabled = true)) := by
  constructor
  · intro p hp
    cases hv : validateOrder order with
    | some e => simp [createCheckout, hv] at hp
    | none =>
      cases hg : gymConfigResult with
      | error e =>
        by_cases hnf : errorsIs e .gymNotFound
        · simp [createCheckout, hv, hg, hnf] at hp
        · simp [createCheckout, hv, hg, hnf] at hp
      | ok cfg =>
        by_cases hen : cfg.isPaymentEnabled = false
        · simp [createCheckout, hv, hg, hen] at hp
        · by_cases htok : cfg.accessToken = ""
          · simp [createCheckout, hv, hg, hen, htok] at hp
          · exact ⟨cfg, rfl, by simpa using hen, htok⟩
  · intro cfg hcfg hen
    subst hcfg
    cases hv : validateOrder order with
    | some e =>
      constructor
      · simp [createCheckout, hv]
      · intro hnone
        exact absurd hnone (by simp)
    | none =>
      constructor
      · simp [createCheckout, hv, hen]
      · intro _
        refine ⟨.structured (.sentinel .paymentNotEnabled)
            ("gym '" ++ order.gymSlug ++ "' does not have payment integration enabled")
            "PAYMENT_NOT_ENABLED", ?_, ?_⟩
        · simp [createCheckout, hv, hen]
        · simp [errorsIs]

/-- Witness for C3 at a concrete disabled gym config and valid order. -/
theorem C3_checkout_requires_enabled_token_witness :
    validateOrder ⟨"gym-1", 10, "Plan Mensual", "", "a@b.com"⟩ = none
    ∧ (createCheckout (.ok ⟨"1", "gym-1", "Gym", "tok", false⟩) (.ok ⟨"pref-1", "https://mp/init"⟩)
        ⟨"gym-1", 10, "Plan Mensual", "", "a@b.com"⟩).gatewayCalled = false
    ∧ ∃ e, (createCheckout (.ok ⟨"1", "gym-1", "Gym", "tok", false⟩)
          (.ok ⟨"pref-1", "https://mp/init"⟩)
          ⟨"gym-1", 10, "Plan Mensual", "", "a@b.com"⟩).result = .error e
        ∧ errorsIs e .paymentNotEnabled = true :=
  have h := (C3_checkout_requires_enabled_token (.ok ⟨"1", "gym-1", "Gym", "tok", false⟩)
    (.ok ⟨"pref-1", "https://mp/init"⟩) ⟨"gym-1", 10, "Plan Mensual", "", "a@b.com"⟩).2
    ⟨"1", "gym-1", "Gym", "tok", false⟩ rfl rfl
  ⟨by decide, h.1, h.2 (by decide)⟩

/-- C8: in both `GetPaymentInfo` adapters, a payment id that does not
parse as the provider's numeric form fails with a validation error that
is not gateway-classified and the provider is never contacted; and (for
the Atoi variant) any gateway-classified failure implies the id parsed,
given the provider-config construction succeeded. -/
theorem C8_parse_failure_validation_error (cfgA cfgB : Except String Unit) (getA getB : Except String MPPayment)
    (now pid : String) :
    (goAtoi pid = none → cfgA = .ok () →
      (adapterGetPaymentInfo cfgA getA now pid).providerCalled = false
      ∧ ∃ e, (adapterGetPaymentInfo cfgA getA now pid).result = .error e
          ∧ errorsIs e .invalidRequest = true ∧ errorsIs e .paymentGatewayError = false)
    ∧ (sscanfD pid = none → cfgB = .ok () →
      (platformGetPaymentInfo cfgB getB now pid).providerCalled = false
      ∧ ∃ e, (platformGetPaymentInfo cfgB getB now pid).result = .error e
          ∧ errorsIs e .paymentGatewayError = false)
    ∧ (∀ e, cfgA = .ok () → (adapterGetPaymentInfo cfgA getA now pid).result = .error e →
        errorsIs e .paymentGatewayError = true → ∃ n, goAtoi pid = some n) := by
  refine ⟨?_, ?_, ?_⟩
  · intro hparse hcfg
    subst hcfg
    refine ⟨by simp [adapterGetPaymentInfo, hparse], ?_⟩
    refine ⟨.structured (.sentinel .invalidRequest) "invalid payment ID format"
        "INVALID_PAYMENT_ID", ?_, ?_, ?_⟩
    · simp [adapterGetPaymentInfo, hparse]
    · simp [errorsIs]
    · simp [errorsIs]
  · intro hparse hcfg
    subst hcfg
    refine ⟨by simp [platformGetPaymentInfo, hparse], ?_⟩
    refine ⟨.wrapped "invalid payment ID format" (.external "expected integer"), ?_, ?_⟩
    · simp [platformGetPaymentInfo, hparse]
    · simp [errorsIs]
  · intro e hcfg hres hgw
    subst hcfg
    cases hparse : goAtoi pid with
    | none =>
      simp [adapterGetPaymentInfo, hparse] at hres
      subst hres
      simp [errorsIs] at hgw
    | some n => exact ⟨n, rfl⟩

/-- Witness for C8 at the unparsable id `"abc"`. -/
theorem C8_parse_failure_validation_error_witness :
    goAtoi "abc" = none
    ∧ (adapterGetPaymentInfo (.ok ()) (.ok ⟨"approved", "accredited", "order-42", 100, "ARS",
        "credit_card", "visa", "p@x.com", "2024-01-01", false, "2024-01-02", false⟩)
        "2024-01-03" "abc").providerCalled = false
    ∧ ∃ e, (adapterGetPaymentInfo (.ok ()) (.ok ⟨"approved", "accredited", "order-42", 100, "ARS",
          "credit_card", "visa", "p@x.com", "2024-01-01", false, "2024-01-02", false⟩)
          "2024-01-03" "abc").result = .error e
        ∧ errorsIs e .invalidRequest = true ∧ errorsIs e .paymentGatewayError = false :=
  have h := (C8_parse_failure_validation_error (.ok ()) (.ok ())
    (.ok ⟨"approved", "accredited", "order-42", 100, "ARS", "credit_card", "visa", "p@x.com",
       "2024-01-01", false, "2024-01-02", false⟩)
    (.ok ⟨"approved", "accredited", "order-42", 100, "ARS", "credit_card", "visa", "p@x.com",
       "2024-01-01", false, "2024-01-02", false⟩)
    "2024-01-03" "abc").1 (by decide) rfl
  ⟨by decide, h.1, h.2⟩

/-- C10: the Django-variant `CreateCheckout` always returns a `nil` Go
error, encodes every failure as a response with `Success=false` and
error code `VALIDATION_ERROR` or `GATEWAY_ERROR`, and reaches the
gateway whenever the access token, gym slug, amount and title pass
validation — with no constraint on the payer email. -/
theorem C10_django_checkout_error_monad_total (gatewayResult : Except GoError PaymentResponse) (req : PaymentRequest)
    (hgw : ∀ r, gatewayResult = .ok r → r.success = true) :
    (djangoCreateCheckout gatewayResult req).goError = none
    ∧ ((djangoCreateCheckout gatewayResult req).response.success = false →
        (djangoCreateCheckout gatewayResult req).response.errorCode = "VALIDATION_ERROR"
        ∨ (djangoCreateCheckout gatewayResult req).response.errorCode = "GATEWAY_ERROR")
    ∧ (req.mpAccessToken ≠ "" → req.gymSlug ≠ "" → 0 < req.amount → req.title ≠ "" →
        (djangoCreateCheckout gatewayResult req).gatewayCalled = true) := by
  by_cases h1 : req.mpAccessToken = ""
  · refine ⟨by simp [djangoCreateCheckout, h1], by simp [djangoCreateCheckout, h1], ?_⟩
    intro h1' _ _ _
    exact absurd h1 h1'
  · by_cases h2 : req.gymSlug = "" ∨ req.amount ≤ 0 ∨ req.title = ""
    · refine ⟨by simp [djangoCreateCheckout, h1, h2], by simp [djangoCreateCheckout, h1, h2], ?_⟩
      intro _ hg ha ht
      rcases h2 with h2 | h2 | h2
      · exact absurd h2 hg
      · exact absurd h2 (by simpa using ha)
      · exact absurd h2 ht
    · cases hg : gatewayResult with
      | error e =>
        exact ⟨by simp [djangoCreateCheckout, h1, h2, hg],
          by simp [djangoCreateCheckout, h1, h2, hg],
          fun _ _ _ _ => by simp [djangoCreateCheckout, h1, h2, hg]⟩
      | ok r =>
        refine ⟨by simp [djangoCreateCheckout, h1, h2, hg], ?_,
          fun _ _ _ _ => by simp [djangoCreateCheckout, h1, h2, hg]⟩
        intro hfail
        exfalso
        have hr : r.success = true := hgw r hg
        rw [show (djangoCreateCheckout (Except.ok r) req).response = r by
          simp [djangoCreateCheckout, h1, h2]] at hfail
        rw [hr] at hfail
        exact absurd hfail (by simp)

/-- Witness for C10: a request with an empty payer email but valid
token, slug, amount and title still reaches the gateway and yields a
`nil` Go error. -/
theorem C10_django_checkout_error_monad_total_witness :
    (∀ r, (Except.ok ⟨true, "pref-1", "https://init", "https://sandbox", "", ""⟩ :
        Except GoError PaymentResponse) = .ok r → r.success = true)
    ∧ ("" : String) = ""
    ∧ (djangoCreateCheckout (.ok ⟨true, "pref-1", "https://init", "https://sandbox", "", ""⟩)
        ⟨"gym-1", 10, "Plan", "", "", "ref-1", "APP_USR-1", "", "", ""⟩).goError = none
    ∧ (djangoCreateCheckout (.ok ⟨true, "pref-1", "https://init", "https://sandbox", "", ""⟩)
        ⟨"gym-1", 10, "Plan", "", "", "ref-1", "APP_USR-1", "", "", ""⟩).gatewayCalled = true :=
  have hgw : ∀ r, (Except.ok ⟨true, "pref-1", "https://init", "https://sandbox", "", ""⟩ :
      Except GoError PaymentResponse) = .ok r → r.success = true := by
    intro r h
    cases h
    rfl
  have h := C10_django_checkout_error_monad_total (.ok ⟨true, "pref-1", "https://init", "https://sandbox", "", ""⟩)
    ⟨"gym-1", 10, "Plan", "", "", "ref-1", "APP_USR-1", "", "", ""⟩ hgw
  ⟨hgw, rfl, h.1, h.2.2 (by decide) (by decide) (by decide) (by decide)⟩

/-- Witness for C7 at a concrete digit timestamp and secret. -/
theorem C7_verify_roundtrip_witness :
    (("1704908010" : String) ≠ ""
      ∧ (∀ c ∈ ("1704908010" : String).data, c.isDigit = true)
      ∧ ("supersecret" : String) ≠ "")
    ∧ validateSignature
        (mpSignatureHeader "1704908010"
          (calculateHMAC (buildManifest "123456" "req-abc" "1704908010") "supersecret"))
        "req-abc" "123456" "supersecret" = true :=
  ⟨⟨by decide, by decide, by decide⟩,
   (C7_verify_roundtrip "123456" "req-abc" "1704908010" "supersecret" (by decide) (by decide)
     (by decide)).1⟩

/-- Witness for C5 at an unrecognized status string. -/
theorem C5_mapStatusToEvent_total_witness :
    ("some_unknown_status" ∉
      (["approved", "pending", "in_process", "rejected", "cancelled", "refunded"] : List String))
    ∧ mapStatusToEvent "some_unknown_status" = "payment.updated"
    ∧ mapStatusToEvent "" ≠ "" :=
  ⟨by decide,
   C5_mapStatusToEvent_total.2.2.2.2.2.2.1 "some_unknown_status" (by decide),
   C5_mapStatusToEvent_total.2.2.2.2.2.2.2 ""⟩

/-- Witness for C4 (amended) at a triple with a non-empty resource id. -/
theorem C4_manifest_omits_empty_fields_amended_witness :
    (("p-777" : String) ≠ "" ∨ ("" : String) ≠ "" ∨ ("" : String) ≠ "")
    ∧ buildManifest "p-777" "" "" = specCanonicalMessage "p-777" "" "" :=
  ⟨Or.inl (by decide),
   C4_manifest_omits_empty_fields_amended.2 "p-777" "" "" (Or.inl (by decide))⟩
